import Mathlib

/-!
Verification of the nats-top core (nats-top.go) against its natural-language
specification.

The embedding models, faithfully to the source:
* the sampler loop `monitorStats` (rate computation, failure handling),
* the chart history trimming performed by `update` inside `StartUI`,
* the sort dispatch of `generateParagraph` (comparators live in the
  `util` package, which is not part of this tree; they are modelled from the
  spec where noted),
* the keyboard event handling of `StartUI` (sort/limit prompts, quit,
  view toggle).

Go's `float64` values are modelled as exact rationals (`ℚ`), machine
integers as `Int`.
-/

namespace NatsTop

/-- From `gnatsd.Varz` as used by nats-top.go: the four raw counters the
sampler diffs (lines 166-169).  `&gnatsd.Varz{}` is the zero value, hence
the `0` defaults. -/
structure Varz where
  InMsgs : Int := 0
  OutMsgs : Int := 0
  InBytes : Int := 0
  OutBytes : Int := 0
deriving DecidableEq, Repr

/-- From `gnatsd.Conn` as printed/sorted by generateParagraph: the numeric
fields the sort policy reads.  Display-only fields (IP, Port, Lang,
Version, Pending) are omitted; they are never read by the claims. -/
structure Conn where
  Cid : Int := 0
  NumSubs : Int := 0
  OutMsgs : Int := 0
  InMsgs : Int := 0
  OutBytes : Int := 0
  InBytes : Int := 0
deriving DecidableEq, Repr

/-- From `gnatsd.Connz` as used by nats-top.go: connection count and the
connection slice (lines 218, 259-280).  `&gnatsd.Connz{}` is the zero
value. -/
structure Connz where
  NumConns : Int := 0
  Conns : List Conn := []
deriving DecidableEq, Repr

/-- From `util.Rates` (nats-top.go lines 195-200): the four per-second
rates.  `&Rates{}` is the zero value, hence the `0` defaults. -/
structure Rates where
  InMsgsRate : ℚ := 0
  OutMsgsRate : ℚ := 0
  InBytesRate : ℚ := 0
  OutBytesRate : ℚ := 0
deriving DecidableEq, Repr

/-- From `util.Stats` (nats-top.go lines 132-136): the record published on
the stats channel each cycle; every field starts out as the zero value. -/
structure Stats where
  Varz : Varz := {}
  Connz : Connz := {}
  Rates : Rates := {}
deriving DecidableEq, Repr

/-- The loop-local state of `monitorStats` (nats-top.go lines 102-120):
the `first` flag, the four `...LastVal` counters, the four persistent rate
variables, and `pollTime`.  Wall-clock instants are rationals (seconds). -/
structure SamplerState where
  first : Bool
  inMsgsLastVal : Int
  outMsgsLastVal : Int
  inBytesLastVal : Int
  outBytesLastVal : Int
  inMsgsRate : ℚ
  outMsgsRate : ℚ
  inBytesRate : ℚ
  outBytesRate : ℚ
  pollTime : ℚ
deriving DecidableEq, Repr

/-- `monitorStats` before its loop (nats-top.go lines 102-120): all vars
zero, `first = true`, `pollTime = time.Now()` (the parameter `t0`). -/
def initSamplerState (t0 : ℚ) : SamplerState :=
  { first := true
    inMsgsLastVal := 0
    outMsgsLastVal := 0
    inBytesLastVal := 0
    outBytesLastVal := 0
    inMsgsRate := 0
    outMsgsRate := 0
    inBytesRate := 0
    outBytesRate := 0
    pollTime := t0 }

/-- One loop cycle's environment: the result of the `/varz` request, the
result of the `/connz` request (`none` = the `Request` call returned an
error), and the wall-clock value `time.Now()` would yield at line 181 of
that cycle. -/
structure CycleInput where
  varz : Option Varz
  connz : Option Connz
  now : ℚ
deriving DecidableEq, Repr

/-- One iteration of the `monitorStats` loop body after the sleep
(nats-top.go lines 131-203).  On a `/varz` error the zero-valued `stats`
is published and the iteration ends (`continue`), leaving every loop
variable untouched; likewise on a `/connz` error (with `stats.Varz`
already filled in).  On success: deltas against the `...LastVal`s, the
`...LastVal`s and `pollTime` are updated, and the persistent rate
variables are recomputed unless this is the first time through
(`first`), in which case they keep their previous (initially zero)
values.  Returns the updated loop state and the published `Stats`. -/
def monitorCycle (st : SamplerState) (c : CycleInput) : SamplerState × Stats :=
  match c.varz with
  | none => (st, {})
  | some varz =>
    match c.connz with
    | none => (st, { Varz := varz })
    | some connz =>
      let inMsgsDelta := varz.InMsgs - st.inMsgsLastVal
      let outMsgsDelta := varz.OutMsgs - st.outMsgsLastVal
      let inBytesDelta := varz.InBytes - st.inBytesLastVal
      let outBytesDelta := varz.OutBytes - st.outBytesLastVal
      let tdelta := c.now - st.pollTime
      let st' : SamplerState :=
        if st.first then
          { st with
            first := false
            inMsgsLastVal := varz.InMsgs
            outMsgsLastVal := varz.OutMsgs
            inBytesLastVal := varz.InBytes
            outBytesLastVal := varz.OutBytes
            pollTime := c.now }
        else
          { st with
            inMsgsLastVal := varz.InMsgs
            outMsgsLastVal := varz.OutMsgs
            inBytesLastVal := varz.InBytes
            outBytesLastVal := varz.OutBytes
            pollTime := c.now
            inMsgsRate := (inMsgsDelta : ℚ) / tdelta
            outMsgsRate := (outMsgsDelta : ℚ) / tdelta
            inBytesRate := (inBytesDelta : ℚ) / tdelta
            outBytesRate := (outBytesDelta : ℚ) / tdelta }
      (st', { Varz := varz
              Connz := connz
              Rates := { InMsgsRate := st'.inMsgsRate
                         OutMsgsRate := st'.outMsgsRate
                         InBytesRate := st'.inBytesRate
                         OutBytesRate := st'.outBytesRate } })

/-- The `monitorStats` loop run over a finite list of cycle environments:
threads the loop state and collects the `Stats` published on `statsCh`,
one per cycle. -/
def runSampler (st : SamplerState) : List CycleInput → SamplerState × List Stats
  | [] => (st, [])
  | c :: cs =>
    let p := monitorCycle st c
    let r := runSampler p.1 cs
    (r.1, p.2 :: r.2)

/-- `monitorStats` (nats-top.go lines 98-205) started at wall-clock `t0`
and run for the given cycles: the list of published `Stats`. -/
def monitorStats (t0 : ℚ) (cycles : List CycleInput) : List Stats :=
  (runSampler (initSamplerState t0) cycles).2

/-- The `Varz` a cycle's successful fetch produced (zero value otherwise;
only applied to successful cycles). -/
def cycleVarz (c : CycleInput) : Varz := c.varz.getD {}

/-- The rates line 195-200 publishes for a successful cycle `c` whose
predecessor successful cycle was `p`: counter deltas divided by the
measured wall-clock interval between the two cycles. -/
def rateBetween (p c : CycleInput) : Rates :=
  { InMsgsRate := (((cycleVarz c).InMsgs - (cycleVarz p).InMsgs : Int) : ℚ) / (c.now - p.now)
    OutMsgsRate := (((cycleVarz c).OutMsgs - (cycleVarz p).OutMsgs : Int) : ℚ) / (c.now - p.now)
    InBytesRate := (((cycleVarz c).InBytes - (cycleVarz p).InBytes : Int) : ℚ) / (c.now - p.now)
    OutBytesRate := (((cycleVarz c).OutBytes - (cycleVarz p).OutBytes : Int) : ℚ) / (c.now - p.now) }

/-- The rates a successful cycle `c` publishes when the loop state at its
start is `st` with `st.first = false`: deltas against `st`'s remembered
counters divided by the interval since `st.pollTime`. -/
def rateFrom (st : SamplerState) (c : CycleInput) : Rates :=
  { InMsgsRate := (((cycleVarz c).InMsgs - st.inMsgsLastVal : Int) : ℚ) / (c.now - st.pollTime)
    OutMsgsRate := (((cycleVarz c).OutMsgs - st.outMsgsLastVal : Int) : ℚ) / (c.now - st.pollTime)
    InBytesRate := (((cycleVarz c).InBytes - st.inBytesLastVal : Int) : ℚ) / (c.now - st.pollTime)
    OutBytesRate := (((cycleVarz c).OutBytes - st.outBytesLastVal : Int) : ℚ) / (c.now - st.pollTime) }

/-- Both fetches of the cycle succeed. -/
def cycleSuccess (c : CycleInput) : Prop := c.varz.isSome ∧ c.connz.isSome

instance (c : CycleInput) : Decidable (cycleSuccess c) :=
  inferInstanceAs (Decidable (_ ∧ _))

/-- Every cycle's fetches succeed. -/
def allSuccess (cs : List CycleInput) : Prop := ∀ c ∈ cs, cycleSuccess c

instance (cs : List CycleInput) : Decidable (allSuccess cs) :=
  List.decidableBAll _ cs

/-- From `update` inside `StartUI` (nats-top.go lines 448-451; the same
append-and-trim is repeated verbatim for the memory chart, lines 454-457,
and the four sparkline rate charts, lines 460-481): append the new sample,
then, if the length exceeds 150, keep the Go slice `data[1:150]`, i.e.
drop the head and keep at most the next 149 elements. -/
def chartPush (data : List Int) (x : Int) : List Int :=
  let d := data ++ [x]
  if 150 < d.length then (d.drop 1).take 149 else d

/-- A sequence of per-snapshot appends to one chart history series. -/
def chartPushAll (data : List Int) (xs : List Int) : List Int :=
  xs.foldl chartPush data

/-- The six recognized sort options, dispatched by the switch in
`generateParagraph` (nats-top.go lines 259-272) and validated in `main`
(lines 56-62) and in the sort prompt (lines 517-535). -/
inductive SortKey
  | cid
  | subs
  | outMsgs
  | inMsgs
  | outBytes
  | inBytes
deriving DecidableEq, Repr

/-- Modelled from the spec: the comparator types `ByCid`, `BySubs`,
`ByMsgsTo`, `ByMsgsFrom`, `ByBytesTo`, `ByBytesFrom` live in the `util`
package of this repository, which is not under this tree; per spec §4.2
each key orders by one metric of a connection.  `MSGS_TO`/`BYTES_TO`
columns print `Conn.OutMsgs`/`Conn.OutBytes` (lines 276-277), fixing
which metric each key reads. -/
def sortMetric : SortKey → Conn → Int
  | .cid, c => c.Cid
  | .subs, c => c.NumSubs
  | .outMsgs, c => c.OutMsgs
  | .inMsgs, c => c.InMsgs
  | .outBytes, c => c.OutBytes
  | .inBytes, c => c.InBytes

/-- Modelled from the spec (§4.2): the sort direction and tie-break as a
pair of integer sort components — primary component ascending, and the
connection id as the ascending secondary component.  `cid` sorts by id
ascending; every other key sorts by its metric descending (ascending by
the negated metric). -/
def sortVec (k : SortKey) (c : Conn) : Int × Int :=
  match k with
  | .cid => (c.Cid, c.Cid)
  | k => (- sortMetric k c, c.Cid)

/-- Modelled from the spec (§4.2): the total preorder used to display
connections under sort key `k` — lexicographic on `sortVec`. -/
def connLE (k : SortKey) (a b : Conn) : Prop :=
  (sortVec k a).1 < (sortVec k b).1 ∨
    ((sortVec k a).1 = (sortVec k b).1 ∧ (sortVec k a).2 ≤ (sortVec k b).2)

instance (k : SortKey) : DecidableRel (connLE k) := fun a b => by
  unfold connLE
  exact inferInstance

instance (k : SortKey) : IsTotal Conn (connLE k) := by
  constructor
  intro a b
  unfold connLE
  omega

instance (k : SortKey) : IsTrans Conn (connLE k) := by
  constructor
  intro a b c hab hbc
  unfold connLE at hab hbc ⊢
  omega

/-- The sort dispatch of `generateParagraph` (nats-top.go lines 259-272):
`opts["sort"]` absent (startup rejected the `-sort` flag, lines 56-62)
matches no case and the slice is left as is; otherwise the slice is
sorted by the key's comparator (through `sort.Reverse` for the five
metric keys).  The ordering itself is spec-modelled via `connLE`. -/
def sortConns : Option SortKey → List Conn → List Conn
  | none, conns => conns
  | some k, conns => List.insertionSort (connLE k) conns

/-- The effect of `generateParagraph` (nats-top.go lines 209-283) on the
snapshot it renders: `sort.Sort` reorders `stats.Connz.Conns` in place;
no other field of the snapshot is written.  The produced report text is
elided — this definition captures the post-render snapshot. -/
def generateParagraphEffect (k : Option SortKey) (stats : Stats) : Stats :=
  { stats with Connz := { stats.Connz with Conns := sortConns k stats.Connz.Conns } }

/-- Modelled from the spec: the recognized sort-option strings; the
constants `SortByCid` … `SortByInBytes` live in the `util` package, not
under this tree.  A buffer parses to a key exactly when it is one of the
six strings. -/
def parseSortOpt (s : String) : Option SortKey :=
  if s = "cid" then some .cid
  else if s = "subs" then some .subs
  else if s = "msgs_to" then some .outMsgs
  else if s = "msgs_from" then some .inMsgs
  else if s = "bytes_to" then some .outBytes
  else if s = "bytes_from" then some .inBytes
  else none

/-- The leading-digits value of a character list: `none` when the list
does not start with a digit. -/
def digitsVal (l : List Char) : Option Nat :=
  let ds := l.takeWhile (fun c => c.isDigit)
  if ds.isEmpty then none
  else some (ds.foldl (fun acc c => acc * 10 + (c.toNat - 48)) 0)

/-- From the limit prompt handler (nats-top.go lines 557-561):
`fmt.Sscanf(optionBuf, "%d", &n)` — an optional sign followed by at
least one digit is read from the front of the buffer (trailing
characters are ignored, as Sscanf stops after the verb); `none` when no
integer can be read. -/
def sscanfInt (s : String) : Option Int :=
  match s.data with
  | '-' :: rest => (digitsVal rest).map (fun n => -(n : Int))
  | '+' :: rest => (digitsVal rest).map (fun n => (n : Int))
  | l => (digitsVal l).map (fun n => (n : Int))

/-- The two grids toggled by the space key (nats-top.go lines 416,
593-608). -/
inductive ViewMode
  | top
  | dashboard
deriving DecidableEq, Repr

/-- The `e.Key` field of a termui keyboard event, restricted to the key
codes `StartUI` inspects: `KeyEnter`, `KeyBackspace`, `KeyBackspace2`,
`KeySpace`; every other key (including ordinary character keys, whose
`Ch` field carries the rune) is `chKey`. -/
inductive KeyCode
  | enter
  | backspace
  | backspace2
  | space
  | chKey
deriving DecidableEq, Repr

/-- A termui event as inspected by `StartUI`: a keyboard event with its
`Key` code and `Ch` rune (the rune is the zero rune for special keys,
termbox reports `Ch = 0` whenever `Key` is set), or a resize event. -/
inductive UIEvent
  | key (k : KeyCode) (ch : Char)
  | resize
deriving DecidableEq, Repr

/-- The `e.Ch` field: the zero rune for a resize event (Go zero value). -/
def eventCh : UIEvent → Char
  | .key _ c => c
  | .resize => Char.ofNat 0

/-- `e.Type == ui.EventKey && e.Key == k`. -/
def isKey (e : UIEvent) (k : KeyCode) : Bool :=
  match e with
  | .key k2 _ => k2 = k
  | .resize => false

/-- `e.Type == ui.EventKey && (e.Key == ui.KeyBackspace || e.Key == ui.KeyBackspace2)`. -/
def isBackspaceKey (e : UIEvent) : Bool :=
  isKey e .backspace || isKey e .backspace2

/-- The mutable state the `StartUI` event loop reads and writes
(nats-top.go lines 416, 488-491 and the shared `opts` map entries it
touches): the two prompt flags, the text buffer, the view mode,
`opts["sort"]` and `opts["conns"]`.  `exited` records that `cleanExit`
ran; `flashedInvalid` records that the transient "invalid order" notice
was shown (the goroutine of lines 522-533, whose ~1s-delayed reset of
the prompt is folded into the transition). -/
structure UIState where
  waitingSortOption : Bool := false
  waitingLimitOption : Bool := false
  optionBuf : String := ""
  viewMode : ViewMode := .top
  sortOpt : Option SortKey := some .cid
  connsLimit : Int := 1024
  exited : Bool := false
  flashedInvalid : Bool := false
deriving DecidableEq, Repr

/-- One iteration of the `StartUI` event loop for an incoming event
(nats-top.go lines 511-640), mirroring the source's fall-through
structure: the sort-prompt block (enter commits or flashes and
`continue`s; otherwise backspace-with-nonempty-buffer drops a character,
else `optionBuf += string(e.Ch)`), then the limit-prompt block (same
shape, enter parses via Sscanf), then the `q` / `o` / `n` / space
checks.  The resize block only resizes widgets and is stateless here. -/
def handleEvent (st0 : UIState) (e : UIEvent) : UIState :=
  if st0.waitingSortOption && isKey e .enter then
    match parseSortOpt st0.optionBuf with
    | some k =>
      { st0 with sortOpt := some k, waitingSortOption := false, optionBuf := "" }
    | none =>
      { st0 with flashedInvalid := true, waitingSortOption := false, optionBuf := "" }
  else
    let st1 :=
      if st0.waitingSortOption then
        if isBackspaceKey e && !st0.optionBuf.isEmpty then
          { st0 with optionBuf := st0.optionBuf.dropRight 1 }
        else
          { st0 with optionBuf := st0.optionBuf.push (eventCh e) }
      else st0
    if st1.waitingLimitOption && isKey e .enter then
      match sscanfInt st1.optionBuf with
      | some n =>
        { st1 with connsLimit := n, waitingLimitOption := false, optionBuf := "" }
      | none =>
        { st1 with waitingLimitOption := false, optionBuf := "" }
    else
      let st2 :=
        if st1.waitingLimitOption then
          if isBackspaceKey e && !st1.optionBuf.isEmpty then
            { st1 with optionBuf := st1.optionBuf.dropRight 1 }
          else
            { st1 with optionBuf := st1.optionBuf.push (eventCh e) }
        else st1
      if eventCh e = 'q' then { st2 with exited := true }
      else
        let st3 :=
          if eventCh e = 'o' && !st2.waitingLimitOption then
            { st2 with waitingSortOption := true }
          else st2
        let st4 :=
          if eventCh e = 'n' && !st3.waitingSortOption then
            { st3 with waitingLimitOption := true }
          else st3
        if isKey e .space then
          match st4.viewMode with
          | .top =>
            { st4 with viewMode := .dashboard
                       waitingSortOption := false
                       waitingLimitOption := false }
          | .dashboard => { st4 with viewMode := .top }
        else st4

/-- From `main` (nats-top.go lines 45-49): the options map stores the
parsed `-d` flag value with no validation of any kind. -/
def mainDelayOpt (d : Int) : Option Int := some d

/-- From `monitorStats` (nats-top.go lines 122-129): at the top of every
loop cycle the `opts["delay"]` entry is type-asserted to `int`; on
success the loop sleeps that many seconds (`.ok` carries the slept
seconds), otherwise `log.Fatalf` aborts the process (`.error`).  This is
the only check the delay value ever receives. -/
def monitorStatsDelaySleep : Option Int → Except Unit Int
  | some val => .ok val
  | none => .error ()

/-- Default cycle environment, used only as the `List.getD` fallback. -/
def dCycle : CycleInput := { varz := none, connz := none, now := 0 }

/-! ## Theorems -/

theorem runSampler_length (st : SamplerState) (cs : List CycleInput) :
    ((runSampler st cs).2).length = cs.length := by
  induction cs generalizing st with
  | nil => rfl
  | cons c cs ih => simp [runSampler, ih]

theorem monitorCycle_first_after_success (st : SamplerState) (c : CycleInput)
    (v : Varz) (cz : Connz) (hv : c.varz = some v) (hcz : c.connz = some cz) :
    ((monitorCycle st c).1).first = false := by
  simp only [monitorCycle, hv, hcz]
  by_cases h : st.first <;> simp [h]

theorem rateFrom_after_success (st : SamplerState) (c d : CycleInput)
    (v : Varz) (cz : Connz) (hv : c.varz = some v) (hcz : c.connz = some cz) :
    rateFrom ((monitorCycle st c).1) d = rateBetween c d := by
  simp only [monitorCycle, hv, hcz]
  by_cases h : st.first <;> simp [h, rateFrom, rateBetween, cycleVarz, hv]

theorem monitorCycle_stats_rates (st : SamplerState) (c : CycleInput)
    (v : Varz) (cz : Connz) (hv : c.varz = some v) (hcz : c.connz = some cz)
    (hfirst : st.first = false) :
    ((monitorCycle st c).2).Rates = rateFrom st c := by
  simp [monitorCycle, hv, hcz, hfirst, rateFrom, cycleVarz]

theorem monitorCycle_stats_rates_first (st : SamplerState) (c : CycleInput)
    (v : Varz) (cz : Connz) (hv : c.varz = some v) (hcz : c.connz = some cz)
    (hfirst : st.first = true) :
    ((monitorCycle st c).2).Rates =
      { InMsgsRate := st.inMsgsRate
        OutMsgsRate := st.outMsgsRate
        InBytesRate := st.inBytesRate
        OutBytesRate := st.outBytesRate } := by
  simp [monitorCycle, hv, hcz, hfirst]

theorem runSampler_rates_aux (cs : List CycleInput) :
    ∀ st : SamplerState, st.first = false → allSuccess cs →
      ∀ i, i < cs.length →
        (((runSampler st cs).2).getD i {}).Rates =
          if i = 0 then rateFrom st (cs.getD 0 dCycle)
          else rateBetween (cs.getD (i - 1) dCycle) (cs.getD i dCycle) := by
  induction cs with
  | nil =>
    intro st _ _ i hi
    simp at hi
  | cons c cs ih =>
    intro st hfirst hall i hi
    have hc : cycleSuccess c := hall c (List.mem_cons_self _ _)
    have hcs : allSuccess cs := fun x hx => hall x (List.mem_cons_of_mem _ hx)
    obtain ⟨v, hv⟩ := Option.isSome_iff_exists.mp hc.1
    obtain ⟨cz, hcz⟩ := Option.isSome_iff_exists.mp hc.2
    have hcons : (runSampler st (c :: cs)).2 =
        (monitorCycle st c).2 :: (runSampler (monitorCycle st c).1 cs).2 := rfl
    match i with
    | 0 =>
      rw [hcons, List.getD_cons_zero, monitorCycle_stats_rates st c v cz hv hcz hfirst]
      simp
    | Nat.succ j =>
      rw [hcons, List.getD_cons_succ]
      have hlt : j < cs.length := by simpa using hi
      have hfirst' := monitorCycle_first_after_success st c v cz hv hcz
      rw [ih (monitorCycle st c).1 hfirst' hcs j hlt]
      by_cases hz : j = 0
      · subst hz
        rw [if_pos rfl, if_neg (Nat.succ_ne_zero 0)]
        rw [rateFrom_after_success st c (cs.getD 0 dCycle) v cz hv hcz]
        simp
      · rw [if_neg hz, if_neg (Nat.succ_ne_zero j)]
        obtain ⟨m, rfl⟩ := Nat.exists_eq_succ_of_ne_zero hz
        simp

/-- Claim C2: in a run of the sampler in which every cycle's fetches
succeed, the snapshot published on the first cycle carries all four rates
equal to zero, and every later cycle's published rates equal the counter
deltas between the two consecutive cycles divided by the measured
wall-clock interval between them (the `time.Now()` difference, not the
configured delay). -/
theorem C2_rates (t0 : ℚ) (cycles : List CycleInput) (h : allSuccess cycles) :
    (monitorStats t0 cycles).length = cycles.length ∧
    (0 < cycles.length → ((monitorStats t0 cycles).getD 0 {}).Rates = {}) ∧
    (∀ i, i + 1 < cycles.length →
      ((monitorStats t0 cycles).getD (i + 1) {}).Rates =
        rateBetween (cycles.getD i dCycle) (cycles.getD (i + 1) dCycle)) := by
  refine ⟨runSampler_length _ _, ?_, ?_⟩
  · intro hl
    match cycles, h, hl with
    | c :: cs, h, _ =>
      have hc : cycleSuccess c := h c (List.mem_cons_self _ _)
      obtain ⟨v, hv⟩ := Option.isSome_iff_exists.mp hc.1
      obtain ⟨cz, hcz⟩ := Option.isSome_iff_exists.mp hc.2
      have hcons : (monitorStats t0 (c :: cs)) =
          (monitorCycle (initSamplerState t0) c).2 ::
            (runSampler (monitorCycle (initSamplerState t0) c).1 cs).2 := rfl
      rw [hcons, List.getD_cons_zero,
        monitorCycle_stats_rates_first _ _ v cz hv hcz rfl]
      rfl
  · intro i hi
    match cycles, h, hi with
    | c :: cs, h, hi =>
      have hc : cycleSuccess c := h c (List.mem_cons_self _ _)
      have hcs : allSuccess cs := fun x hx => h x (List.mem_cons_of_mem _ hx)
      obtain ⟨v, hv⟩ := Option.isSome_iff_exists.mp hc.1
      obtain ⟨cz, hcz⟩ := Option.isSome_iff_exists.mp hc.2
      have hcons : (monitorStats t0 (c :: cs)) =
          (monitorCycle (initSamplerState t0) c).2 ::
            (runSampler (monitorCycle (initSamplerState t0) c).1 cs).2 := rfl
      have hlt : i < cs.length := by simpa using hi
      have hfirst' := monitorCycle_first_after_success (initSamplerState t0) c v cz hv hcz
      rw [hcons, List.getD_cons_succ, runSampler_rates_aux cs _ hfirst' hcs i hlt]
      by_cases hz : i = 0
      · subst hz
        rw [if_pos rfl, rateFrom_after_success _ c (cs.getD 0 dCycle) v cz hv hcz]
        simp
      · rw [if_neg hz]
        obtain ⟨m, rfl⟩ := Nat.exists_eq_succ_of_ne_zero hz
        simp

/-- A concrete two-cycle all-success trace used by the C2 witness. -/
def c2DemoTrace : List CycleInput :=
  [ { varz := some { InMsgs := 10, OutMsgs := 20, InBytes := 30, OutBytes := 40 }, connz := some {}, now := 1 },
    { varz := some { InMsgs := 110, OutMsgs := 220, InBytes := 330, OutBytes := 440 }, connz := some {}, now := 3 } ]

/-- Witness for C2 at a concrete two-cycle trace: the second cycle's
published rates are the counter deltas over the measured 2-second
interval. -/
theorem C2_rates_witness :
    allSuccess c2DemoTrace ∧
    ((monitorStats 0 c2DemoTrace).getD 1 {}).Rates =
      { InMsgsRate := 50, OutMsgsRate := 100, InBytesRate := 150, OutBytesRate := 200 } := by
  refine ⟨by decide, ?_⟩
  have h := (C2_rates 0 c2DemoTrace (by decide)).2.2 0 (by decide)
  rw [h]
  simp only [c2DemoTrace, rateBetween, cycleVarz, dCycle, List.getD_cons_zero,
    List.getD_cons_succ, Option.getD_some, Rates.mk.injEq]
  norm_num

/-- Claim C3 (counterexample): with the sampler's nominal scenario —
cycle 1's fetch fails, cycle 2 succeeds with an InMsgs delta of 500 over
a measured 1.02-second interval (pollTime is not advanced by the failed
cycle, so the measured interval at cycle 2 is `51/50 - 0`) — the snapshot
published for cycle 2 carries all-zero rates, not a rate of about 490.2:
cycle 2 is the first successful cycle, so rate computation is skipped. -/
theorem C3_counterexample :
    monitorStats 0
        [ { varz := none, connz := none, now := 1 },
          { varz := some { InMsgs := 500 }, connz := some {}, now := 51/50 } ] =
      [ {}, { Varz := { InMsgs := 500 } } ] ∧
    ({} : Rates).InMsgsRate = 0 ∧ (2451 : ℚ) / 5 ≠ 0 := by
  refine ⟨by decide, rfl, by norm_num⟩

/-- Claim C3 (amended): when cycle 1's vitals fetch fails and cycle 2's
fetches succeed, cycle 1 publishes the zero-valued snapshot with zero
rates and cycle 2 — being the first successful cycle — publishes the
fetched data with all-zero rates as well; the delta/elapsed rate would
first appear on the next successful cycle. -/
theorem C3_amended (t0 n1 n2 : ℚ) (oc : Option Connz) (v : Varz) (cz : Connz) :
    monitorStats t0
        [ { varz := none, connz := oc, now := n1 },
          { varz := some v, connz := some cz, now := n2 } ] =
      [ {}, { Varz := v, Connz := cz } ] := by
  rfl

/-- Claim C4: a failure of either fetch never terminates the sampler
loop: every cycle publishes exactly one snapshot (the output list has one
entry per cycle), a cycle whose `/varz` fetch fails publishes the
zero-valued snapshot, a cycle whose `/connz` fetch fails publishes the
fetched vitals with zero connections and zero rates, and in both failure
cases the loop state is unchanged, so the loop proceeds to its next
cycle. -/
theorem C4_fetch_failure_resilience :
    (∀ (st : SamplerState) (cycles : List CycleInput),
        ((runSampler st cycles).2).length = cycles.length) ∧
    (∀ (st : SamplerState) (c : CycleInput), c.varz = none →
        monitorCycle st c = (st, {})) ∧
    (∀ (st : SamplerState) (c : CycleInput) (v : Varz),
        c.varz = some v → c.connz = none →
        monitorCycle st c = (st, { Varz := v })) := by
  refine ⟨runSampler_length, ?_, ?_⟩
  · intro st c h
    simp [monitorCycle, h]
  · intro st c v hv hc
    simp [monitorCycle, hv, hc]

/-- Witness for C4 at concrete failing cycles. -/
theorem C4_witness :
    ((runSampler (initSamplerState 0)
        [ { varz := none, connz := none, now := 1 } ]).2).length = 1 ∧
    monitorCycle (initSamplerState 0) { varz := none, connz := none, now := 1 } =
      (initSamplerState 0, {}) ∧
    monitorCycle (initSamplerState 0)
        { varz := some { InMsgs := 7 }, connz := none, now := 1 } =
      (initSamplerState 0, { Varz := { InMsgs := 7 } }) :=
  ⟨C4_fetch_failure_resilience.1 _ _,
   C4_fetch_failure_resilience.2.1 _ _ rfl,
   C4_fetch_failure_resilience.2.2 _ _ _ rfl rfl⟩

set_option maxRecDepth 40000 in
/-- Claim C1 (code bug, evaluation at the failing input): appending the
151 samples 0,1,...,150 to the empty connections history series yields
{1,...,149} — 149 elements, the newest sample 150 evicted along with the
oldest — not the claimed most-recent-150 window {1,...,150}: the trim
`Data = Data[1:150]` of a 151-element slice also drops its last
element. -/
theorem C1_chart_trim_eval :
    chartPushAll [] ((List.range 151).map Int.ofNat) =
      (List.range' 1 149).map Int.ofNat ∧
    (chartPushAll [] ((List.range 151).map Int.ofNat)).length = 149 ∧
    (150 : Int) ∉ chartPushAll [] ((List.range 151).map Int.ofNat) := by
  decide

/-- Claim C5: for every connection list and supported sort key the
displayed ordering is ascending by connection id for the id key and
descending by the respective metric for the five volume keys, with ties
on the active metric broken by ascending connection id; the displayed
list is a permutation of the input. -/
theorem C5_sort_policy (k : SortKey) (conns : List Conn) :
    List.Perm (sortConns (some k) conns) conns ∧
    (k = .cid →
      List.Pairwise (fun a b => a.Cid ≤ b.Cid) (sortConns (some k) conns)) ∧
    (k ≠ .cid →
      List.Pairwise (fun a b =>
          sortMetric k b < sortMetric k a ∨
            (sortMetric k a = sortMetric k b ∧ a.Cid ≤ b.Cid))
        (sortConns (some k) conns)) := by
  refine ⟨List.perm_insertionSort _ _, ?_, ?_⟩
  · intro hk
    subst hk
    refine List.Pairwise.imp ?_
      (List.sorted_insertionSort (connLE .cid) conns : List.Pairwise _ _)
    intro a b h
    simp only [connLE, sortVec] at h
    omega
  · intro hk
    refine List.Pairwise.imp ?_
      (List.sorted_insertionSort (connLE k) conns : List.Pairwise _ _)
    intro a b h
    cases k
    case cid => exact absurd rfl hk
    all_goals
      simp only [connLE, sortVec, sortMetric] at h ⊢
      omega

/-- Witness for C5 at a concrete list under the subscription-count key:
descending by subscription count, the tie between cid 2 and cid 3 broken
by ascending id. -/
theorem C5_witness :
    List.Pairwise (fun a b =>
        sortMetric .subs b < sortMetric .subs a ∨
          (sortMetric .subs a = sortMetric .subs b ∧ a.Cid ≤ b.Cid))
      (sortConns (some .subs)
        [ { Cid := 1, NumSubs := 2 }, { Cid := 2, NumSubs := 5 },
          { Cid := 3, NumSubs := 5 } ]) ∧
    sortConns (some .subs)
        [ { Cid := 1, NumSubs := 2 }, { Cid := 2, NumSubs := 5 },
          { Cid := 3, NumSubs := 5 } ] =
      [ { Cid := 2, NumSubs := 5 }, { Cid := 3, NumSubs := 5 },
        { Cid := 1, NumSubs := 2 } ] := by
  refine ⟨(C5_sort_policy .subs _).2.2 (by decide), by decide⟩

/-- Claim C6 (counterexample): the render path does mutate the published
snapshot — generateParagraph's in-place `sort.Sort` reorders the
snapshot's connection slice, so rendering a snapshot whose connections
are not already in display order changes the snapshot. -/
theorem C6_counterexample :
    generateParagraphEffect (some .cid)
        { Connz := { NumConns := 2, Conns := [ { Cid := 2 }, { Cid := 1 } ] } } ≠
      { Connz := { NumConns := 2, Conns := [ { Cid := 2 }, { Cid := 1 } ] } } := by
  decide

/-- Claim C6 (amended): producing the textual report reorders the
snapshot's connection collection in place (the result is a permutation of
the original connections) but changes nothing else: vitals, rates, and
the connection count are untouched. -/
theorem C6_render_effect (k : Option SortKey) (stats : Stats) :
    List.Perm ((generateParagraphEffect k stats).Connz.Conns) stats.Connz.Conns ∧
    (generateParagraphEffect k stats).Varz = stats.Varz ∧
    (generateParagraphEffect k stats).Rates = stats.Rates ∧
    (generateParagraphEffect k stats).Connz.NumConns = stats.Connz.NumConns := by
  refine ⟨?_, rfl, rfl, rfl⟩
  cases k with
  | none => exact List.Perm.refl _
  | some k => exact List.perm_insertionSort _ _

/-- Claim C7: pressing enter in the sort prompt with a buffer that is not
one of the six recognized sort keys leaves the active sort key in the
shared options unchanged, records the transient "invalid order" notice,
clears the prompt buffer, and returns the input machine to the Normal
state.  (The notice's ~1-second duration and the asynchronous reset
goroutine are folded into the transition.) -/
theorem C7_invalid_sort_entry (st : UIState) (c : Char)
    (hw : st.waitingSortOption = true)
    (hp : parseSortOpt st.optionBuf = none) :
    handleEvent st (.key .enter c) =
      { st with flashedInvalid := true, waitingSortOption := false, optionBuf := "" } := by
  simp [handleEvent, hw, hp, isKey]

/-- Witness for C7: an unrecognized buffer "bogus" is rejected — sort key
intact, buffer cleared, back to Normal, notice flashed. -/
theorem C7_witness :
    parseSortOpt "bogus" = none ∧
    handleEvent { waitingSortOption := true, optionBuf := "bogus" }
        (.key .enter (Char.ofNat 0)) =
      { waitingSortOption := false, optionBuf := "", flashedInvalid := true } := by
  refine ⟨by decide, ?_⟩
  exact C7_invalid_sort_entry _ _ rfl (by decide)

/-- Claim C8 (counterexample): a configured delay of 0 — non-positive —
is not rejected anywhere: main stores it unvalidated, the per-cycle
check accepts it, and the loop sleeps 0 seconds, violating both the
"fatal before the loop" and the "sleep at least 1 second" parts of the
claim. -/
theorem C8_counterexample :
    mainDelayOpt 0 = some 0 ∧
    monitorStatsDelaySleep (mainDelayOpt 0) = .ok 0 ∧
    ¬ (1 ≤ (0 : Int)) :=
  ⟨rfl, rfl, by decide⟩

/-- Claim C8 (amended): the delay receives no positivity validation at
all — every integer delay (zero and negative included) is accepted and
used as the per-cycle sleep duration as is; the only delay check in the
program is the per-cycle type assertion inside the loop, which is fatal
exactly when the stored option value is not an int (unreachable through
main, which always stores an int). -/
theorem C8_delay_handling :
    (∀ d : Int, monitorStatsDelaySleep (mainDelayOpt d) = .ok d) ∧
    (∀ o : Option Int, monitorStatsDelaySleep o = .error () ↔ o = none) := by
  constructor
  · intro d
    rfl
  · intro o
    cases o <;> simp [monitorStatsDelaySleep, mainDelayOpt]

/-- Claim C9 (counterexample): while the sort prompt is active, a 'q' key
event does not merely append to the buffer — it falls through to the
quit check and terminates the program; and a space key event leaves the
EnteringSort state (it toggles the view and clears the prompt flag). -/
theorem C9_counterexample :
    (handleEvent { waitingSortOption := true } (.key .chKey 'q')).exited = true ∧
    (handleEvent { waitingSortOption := true } (.key .space (Char.ofNat 0))).waitingSortOption
        = false ∧
    (handleEvent { waitingSortOption := true } (.key .space (Char.ofNat 0))).viewMode
        = .dashboard := by
  decide

/-- Claim C9 (amended): while the sort prompt is active (and the limit
prompt is not), every character key event other than 'q' only appends
its rune to the buffer and leaves the machine in EnteringSort — 'o' and
'n' included; a 'q' key event additionally quits, and a space key event
additionally toggles the view and deactivates the prompts.  In Normal
mode a character key outside the handled set \x7bq, o, n\x7d is ignored
with no state, mode, or view change. -/
theorem C9_prompt_keys (st : UIState) (c : Char) :
    (st.waitingSortOption = true → st.waitingLimitOption = false → c ≠ 'q' →
      handleEvent st (.key .chKey c) = { st with optionBuf := st.optionBuf.push c }) ∧
    (st.waitingSortOption = false → st.waitingLimitOption = false →
      c ≠ 'q' → c ≠ 'o' → c ≠ 'n' →
      handleEvent st (.key .chKey c) = st) := by
  obtain ⟨ws, wl, buf, vm, so, cl, ex, fl⟩ := st
  constructor
  · intro h1 h2 hq
    simp only at h1 h2
    subst h1
    subst h2
    by_cases ho : c = 'o' <;>
      simp [handleEvent, eventCh, isKey, isBackspaceKey, hq, ho]
  · intro h1 h2 hq ho hn
    simp only at h1 h2
    subst h1
    subst h2
    simp [handleEvent, eventCh, isKey, isBackspaceKey, hq, ho, hn]

/-- Witness for C9 (amended): appending 'b' to buffer "su" in the sort
prompt, and ignoring 'x' in Normal mode. -/
theorem C9_prompt_keys_witness :
    handleEvent { waitingSortOption := true, optionBuf := "su" } (.key .chKey 'b') =
      { waitingSortOption := true, optionBuf := "sub" } ∧
    handleEvent {} (.key .chKey 'x') = {} := by
  constructor
  · exact (C9_prompt_keys { waitingSortOption := true, optionBuf := "su" } 'b').1
      rfl rfl (by decide)
  · exact (C9_prompt_keys {} 'x').2 rfl rfl (by decide) (by decide) (by decide)

/-- Claim C10: in either prompt mode, a backspace key event arriving with
an empty text buffer is not ignored — the backspace guard requires a
non-empty buffer, so the event falls into the append branch and pushes
the event's `Ch` field (the zero rune, since backspace carries no
printable character), making the buffer a one-character string. -/
theorem C10_backspace_empty_buffer (st : UIState) :
    (st.waitingSortOption = true → st.waitingLimitOption = false → st.optionBuf = "" →
      handleEvent st (.key .backspace (Char.ofNat 0)) =
        { st with optionBuf := String.push "" (Char.ofNat 0) }) ∧
    (st.waitingSortOption = false → st.waitingLimitOption = true → st.optionBuf = "" →
      handleEvent st (.key .backspace (Char.ofNat 0)) =
        { st with optionBuf := String.push "" (Char.ofNat 0) }) := by
  obtain ⟨ws, wl, buf, vm, so, cl, ex, fl⟩ := st
  constructor <;>
  · intro h1 h2 h3
    simp only at h1 h2 h3
    subst h1
    subst h2
    subst h3
    rfl

/-- Witness for C10: from the sort prompt with an empty buffer, the
buffer becomes the one-character zero-rune string and the machine stays
in EnteringSort. -/
theorem C10_witness :
    handleEvent { waitingSortOption := true } (.key .backspace (Char.ofNat 0)) =
      { waitingSortOption := true, optionBuf := String.push "" (Char.ofNat 0) } :=
  (C10_backspace_empty_buffer { waitingSortOption := true }).1 rfl rfl rfl

end NatsTop
